import Mathlib

/-!
Verification of the clickjob recruitment back-office core: a shallow
embedding of the candidate-deduplication, CV-search, candidate-numbering,
job-application and inbound-email logic of `src/server/storage.ts`,
`src/server/routes.ts` and `src/server/incomingEmailService.ts`, together
with theorems settling the specification claims about them.

Strings are modelled as Lean `String`s (sequences of Unicode scalar
values); JavaScript string operations are translated to explicit
`List Char` functions.  Database queries are modelled as pure functions
over a list of rows (the list order models the order in which the store
returns rows; `ORDER BY` clauses are modelled by an explicit sort).
-/

namespace ClickJob

/-- Characters matched by the JavaScript regex class `\s`. -/
def isJsSpace (c : Char) : Bool :=
  c = ' ' || c = '\t' || c = '\n' || c = '\r' || c = '\x0b' || c = '\x0c' ||
  c = Char.ofNat 0x00A0 || c = Char.ofNat 0x1680 ||
  (Char.ofNat 0x2000 ≤ c && c ≤ Char.ofNat 0x200A) ||
  c = Char.ofNat 0x2028 || c = Char.ofNat 0x2029 || c = Char.ofNat 0x202F ||
  c = Char.ofNat 0x205F || c = Char.ofNat 0x3000 || c = Char.ofNat 0xFEFF

/-- Characters stripped by `normalizePhone`'s `phone.replace(/[-\s()]/g, '')`
(storage.ts line 499). -/
def isPhoneSep (c : Char) : Bool :=
  c = '-' || c = '(' || c = ')' || isJsSpace c

/-- JavaScript `String.prototype.trim` on a character list: drop `\s`
characters from both ends. -/
def jsTrimL (l : List Char) : List Char :=
  ((l.dropWhile isJsSpace).reverse.dropWhile isJsSpace).reverse

/-- JavaScript `String.prototype.trim`. -/
def jsTrim (s : String) : String :=
  ⟨jsTrimL s.data⟩

/-- Lower-casing as used to model JavaScript `toLowerCase()` and SQL
`LOWER`/`ILIKE`: `Char.toLower` applied pointwise. -/
def lowerL (l : List Char) : List Char :=
  l.map Char.toLower

/-- Whether `pat` occurs as a contiguous sublist of the second argument
(JavaScript `String.prototype.includes`). -/
def containsSubL (pat : List Char) : List Char → Bool
  | [] => pat.isEmpty
  | c :: rest => pat.isPrefixOf (c :: rest) || containsSubL pat rest

/-- JavaScript `hay.includes(pat)`. -/
def jsIncludes (hay pat : String) : Bool :=
  containsSubL pat.data hay.data

/-- Case-insensitive containment: `hay.toLowerCase().includes(pat.toLowerCase())`. -/
def jsIncludesCI (hay pat : String) : Bool :=
  containsSubL (lowerL pat.data) (lowerL hay.data)

/-- Fuel-indexed worker for `replaceAllL`; the fuel is an upper bound on
the input length, so the fuel-exhausted branch is never reached. -/
def replaceAllGo (pat repl : List Char) : Nat → List Char → List Char
  | _, [] => []
  | 0, l => l
  | fuel + 1, c :: rest =>
    if pat.isPrefixOf (c :: rest) ∧ pat ≠ [] then
      repl ++ replaceAllGo pat repl fuel (rest.drop (pat.length - 1))
    else
      c :: replaceAllGo pat repl fuel rest

/-- SQL `REPLACE(s, pat, repl)` on character lists: replace every
occurrence of `pat` (left to right, non-overlapping) by `repl`. -/
def replaceAllL (pat repl : List Char) (l : List Char) : List Char :=
  replaceAllGo pat repl l.length l

/-- SQL `REPLACE` on strings. -/
def sqlReplace (s pat repl : String) : String :=
  ⟨replaceAllL pat.data repl.data s.data⟩

/-! ## Phone normalization (storage.ts `normalizePhone`, lines 498–514) -/

/-- Step 1 of `normalizePhone`: `phone.replace(/[-\s()]/g, '')`. -/
def stripSeps (l : List Char) : List Char :=
  l.filter (fun c => !isPhoneSep c)

/-- Step 2 of `normalizePhone`: collapse a leading `+972` or `972` to `0`. -/
def collapse972 (l : List Char) : List Char :=
  if l.take 4 = ['+', '9', '7', '2'] then
    '0' :: l.drop 4
  else if l.take 3 = ['9', '7', '2'] then
    '0' :: l.drop 3
  else
    l

/-- Step 3 of `normalizePhone`: if the string has exactly 9 characters and
does not start with `0`, prepend `0`. -/
def pad9 (l : List Char) : List Char :=
  if l.length = 9 ∧ l.head? ≠ some '0' then '0' :: l else l

/-- The composed phone normalization on character lists. -/
def normalizePhoneL (l : List Char) : List Char :=
  pad9 (collapse972 (stripSeps l))

/-- Function `normalizePhone` of storage.ts (lines 498–514): strip `-`, whitespace
and parentheses; rewrite a leading `+972` or `972` prefix to `0`; prepend
`0` when exactly 9 characters remain and none of them is a leading `0`. -/
def normalizePhone (s : String) : String :=
  ⟨normalizePhoneL s.data⟩

/-- Stored-side phone rewriting used inside the SQL `WHERE` clause of
`findCandidateByContactInfo` (storage.ts line 524):
`REPLACE(REPLACE(REPLACE(mobile, '-', ''), ' ', ''), '+972', '0')`. -/
def sqlPhoneNormalize (s : String) : String :=
  sqlReplace (sqlReplace (sqlReplace s "-" "") " " "") "+972" "0"

/-! ## Data model

A candidate row, with the columns the verified operations read or write.
`NOT NULL` columns are `String`/`Nat`, nullable columns are `Option`.
`createdAt` timestamps are modelled as `Nat`. -/

/-- A row of the `candidates` table. -/
structure Candidate where
  id : String
  firstName : String
  lastName : String
  email : String
  mobile : Option String
  nationalId : Option String
  candidateNumber : Option Nat
  profession : Option String
  city : Option String
  cvContent : Option String
  cvPath : Option String
  notes : Option String
  recruitmentSource : Option String
  createdAt : Nat
deriving DecidableEq, Repr

/-- JavaScript truthiness of an optional string: `undefined`, `null` and
the empty string are falsy. -/
def jsTruthy : Option String → Bool
  | none => false
  | some s => !s.isEmpty

/-- JavaScript `a || b` where `a` is an optional string and `b` a string
(as in `candidateData.firstName || existingCandidate.firstName`). -/
def jsOrS (a : Option String) (b : String) : String :=
  if jsTruthy a then a.getD "" else b

/-- JavaScript `a || b` on two optional strings. -/
def jsOrO (a b : Option String) : Option String :=
  if jsTruthy a then a else b

/-! ## Identity resolver (storage.ts `findCandidateByContactInfo`, lines 516–549) -/

/-- Query parameters of `findCandidateByContactInfo(mobile?, email?, nationalId?)`. -/
structure ContactQuery where
  mobile : Option String
  email : Option String
  nationalId : Option String
deriving DecidableEq, Repr

/-- Whether the mobile condition is pushed into the SQL `WHERE` clause
(`if (mobile)`, storage.ts line 522). -/
def mobileCondActive (q : ContactQuery) : Bool :=
  jsTruthy q.mobile

/-- Whether the email condition is pushed
(`if (email && email !== '' && !email.includes('temp.local'))`, line 528). -/
def emailCondActive (q : ContactQuery) : Bool :=
  jsTruthy q.email && !jsIncludes (q.email.getD "") "temp.local"

/-- Whether the national-ID condition is pushed (`if (nationalId)`, line 533). -/
def nationalIdCondActive (q : ContactQuery) : Bool :=
  jsTruthy q.nationalId

/-- The stored-side mobile condition of line 524: the SQL-`REPLACE`d stored
mobile equals the `normalizePhone`d query mobile.  A `NULL` stored mobile
compares as no match (SQL three-valued logic). -/
def mobileCondHolds (q : ContactQuery) (c : Candidate) : Bool :=
  match c.mobile with
  | none => false
  | some stored => sqlPhoneNormalize stored = normalizePhone (q.mobile.getD "")

/-- The stored-side email condition of line 529:
`LOWER(candidates.email) = LOWER(query email)`. -/
def emailCondHolds (q : ContactQuery) (c : Candidate) : Bool :=
  lowerL c.email.data = lowerL (q.email.getD "").data

/-- The stored-side national-ID condition of line 534: exact equality,
`NULL` never matching. -/
def nationalIdCondHolds (q : ContactQuery) (c : Candidate) : Bool :=
  match c.nationalId with
  | none => false
  | some stored => stored = q.nationalId.getD ""

/-- The disjunction of the pushed conditions: a row satisfies the `WHERE`
clause iff some active condition holds of it. -/
def contactRowMatches (q : ContactQuery) (c : Candidate) : Bool :=
  (mobileCondActive q && mobileCondHolds q c) ||
  (emailCondActive q && emailCondHolds q c) ||
  (nationalIdCondActive q && nationalIdCondHolds q c)

/-- Whether at least one condition was pushed (`conditions.length === 0`
check of line 537). -/
def anyCondActive (q : ContactQuery) : Bool :=
  mobileCondActive q || emailCondActive q || nationalIdCondActive q

/-- Function `findCandidateByContactInfo` (storage.ts lines 516–549): return
`undefined` when no parameter is supplied or no condition was pushed,
otherwise the first row of the store (in the store's return order — the
query has no `ORDER BY`) satisfying the disjunction of the pushed
conditions. -/
def findCandidateByContactInfo (store : List Candidate) (q : ContactQuery) : Option Candidate :=
  if !(jsTruthy q.mobile || jsTruthy q.email || jsTruthy q.nationalId) then
    none
  else if !anyCondActive q then
    none
  else
    store.find? (contactRowMatches q)

/-- Matching policy as worded by the specification claim (for comparison
with `contactRowMatches`): the query mobile matches when the stored mobile,
normalized by the *identical* normalization `normalizePhone`, equals the
normalized query mobile; email and national-ID clauses as in the code. -/
def specContactMatches (q : ContactQuery) (c : Candidate) : Bool :=
  (mobileCondActive q &&
    (match c.mobile with
     | none => false
     | some stored => normalizePhone stored = normalizePhone (q.mobile.getD ""))) ||
  (emailCondActive q && emailCondHolds q c) ||
  (nationalIdCondActive q && nationalIdCondHolds q c)

/-! ## Inbound-email merge (incomingEmailService.ts `createCandidateFromEmail`,
lines 304–338) -/

/-- The transient parsed-candidate record produced by `parseCandidate`.
`originalBody` is already truncated to 500 characters at parse time. -/
structure ParsedCandidate where
  firstName : Option String
  lastName : Option String
  email : String
  phone : Option String
  jobCode : Option String
  originalSubject : String
  originalBody : String
deriving DecidableEq, Repr

/-- The notes block appended by `createCandidateFromEmail` when updating an
existing candidate (line 321). -/
def emailNotesBlock (d : ParsedCandidate) : String :=
  "\n\n--- מייל חדש ---\nנושא: " ++ d.originalSubject ++ "\nתוכן:\n" ++ d.originalBody

/-- The update applied to an existing candidate on an email match
(incomingEmailService.ts lines 316–322): `firstName`, `lastName` and
`mobile` are `extracted || existing`, and `notes` becomes
`` `${existing.notes || ''}` `` followed by the new-mail block, trimmed. -/
def mergeCandidateUpdate (ex : Candidate) (d : ParsedCandidate) : Candidate :=
  { ex with
    firstName := jsOrS d.firstName ex.firstName
    lastName := jsOrS d.lastName ex.lastName
    mobile := jsOrO d.phone ex.mobile
    notes := some (jsTrim ((ex.notes.getD "") ++ emailNotesBlock d)) }

/-! ## Candidate listing (storage.ts `getCandidates`, lines 331–375),
as used by the inbound pipeline's duplicate check -/

/-- The `ILIKE '%search%'` filter of `getCandidates` (line 335): the search
string occurs case-insensitively in `firstName || ' ' || lastName`, in
`email`, or in `profession` (`NULL` yielding no match). -/
def getCandidatesSearchFilter (search : String) (c : Candidate) : Bool :=
  jsIncludesCI (c.firstName ++ " " ++ c.lastName) search ||
  jsIncludesCI c.email search ||
  (match c.profession with
   | none => false
   | some p => jsIncludesCI p search)

/-- Insert a candidate into a list sorted by `createdAt` descending. -/
def insertByCreated (x : Candidate) : List Candidate → List Candidate
  | [] => [x]
  | d :: rest =>
    if d.createdAt < x.createdAt then x :: d :: rest
    else d :: insertByCreated x rest

/-- Sort a candidate list by `createdAt` descending (`ORDER BY createdAt DESC`;
relative order of ties is left to the store and is not relied upon). -/
def sortByCreatedDesc (l : List Candidate) : List Candidate :=
  l.foldr insertByCreated []

/-- Function `getCandidates(limit, offset, search)` (storage.ts lines 331–375) with a
non-empty search string: rows matching the `ILIKE` filter, most recently
created first, paginated. -/
def getCandidatesPage (store : List Candidate) (search : String) (limit offset : Nat) :
    List Candidate :=
  (((sortByCreatedDesc store).filter (getCandidatesSearchFilter search)).drop offset).take limit

/-- The update-versus-create decision of `createCandidateFromEmail`
(incomingEmailService.ts lines 307–312): fetch `getCandidates(100, 0, email)`
and look for a returned candidate whose `email` equals the extracted email
exactly (`===`, case-sensitive).  `some c` means "update candidate `c`",
`none` means "create a new profile". -/
def createCandidateFromEmailDecision (store : List Candidate) (email : String) :
    Option Candidate :=
  (getCandidatesPage store email 100 0).find? (fun c => c.email = email)

/-! ## Naive CV search (storage.ts `searchCVs`, lines 569–697) -/

/-- Function `textContainsKeyword` (storage.ts lines 141–144): false when the text or
the keyword is empty (JavaScript falsiness of `''`), otherwise
case-insensitive substring containment. -/
def textContainsKeyword (text keyword : String) : Bool :=
  if text.isEmpty || keyword.isEmpty then false
  else jsIncludesCI text keyword

/-- The per-candidate searchable text built by `searchCVs` (lines 599–644):
name and profession, then cached CV content when present, else text
extracted on demand from the stored CV file (modelled by the oracle
`extractFile`, which returns the extracted text or `""` on failure), then —
when `includeNotes` is set — the candidate's notes and the non-blank event
descriptions (modelled by the oracle `eventsOf`, keyed by candidate id,
`none` standing for a `NULL` description) joined by spaces. -/
def searchableText (extractFile : String → String) (eventsOf : String → List (Option String))
    (includeNotes : Bool) (c : Candidate) : String :=
  let nameProfession :=
    jsTrim (c.firstName ++ " " ++ c.lastName ++ " " ++ (c.profession.getD ""))
  let t1 :=
    if jsTruthy c.cvContent then nameProfession ++ " " ++ c.cvContent.getD ""
    else nameProfession
  let t2 :=
    if jsTruthy c.cvPath && !jsTruthy c.cvContent then
      let extracted := extractFile (c.cvPath.getD "")
      if !extracted.isEmpty then t1 ++ " " ++ extracted else t1
    else t1
  let t3 :=
    if includeNotes && jsTruthy c.notes then t2 ++ " " ++ c.notes.getD ""
    else t2
  if includeNotes then
    let eventsText :=
      String.intercalate " "
        (((eventsOf c.id).map (fun d => d.getD "")).filter
          (fun d => 0 < (jsTrim d).length))
    if !eventsText.isEmpty then t3 ++ " " ++ eventsText else t3
  else t3

/-- Whether a candidate with searchable text `text` passes the keyword
criteria of `searchCVs` (lines 646–672): at least one positive keyword
matches when the positive list is non-empty, and no negative keyword
matches. -/
def searchCVsMatches (text : String) (positiveKeywords negativeKeywords : List String) : Bool :=
  (positiveKeywords.isEmpty || positiveKeywords.any (fun k => textContainsKeyword text k)) &&
  negativeKeywords.all (fun k => !textContainsKeyword text k)

/-- A row of the result list of `searchCVs` (lines 676–686). -/
structure SearchResult where
  candidateId : String
  firstName : String
  lastName : String
  city : String
  phone : String
  email : String
  matchedKeywords : List String
  cvPreview : String
  extractedAt : Nat
deriving DecidableEq, Repr

/-- The result record pushed for a matching candidate (lines 676–686):
`matchedKeywords` collects, in order, the positive keywords for which
`textContainsKeyword` held. -/
def mkSearchResult (extractFile : String → String) (eventsOf : String → List (Option String))
    (includeNotes : Bool) (positiveKeywords : List String) (c : Candidate) : SearchResult :=
  let text := searchableText extractFile eventsOf includeNotes c
  { candidateId := c.id
    firstName := c.firstName
    lastName := c.lastName
    city := c.city.getD ""
    phone := c.mobile.getD ""
    email := c.email
    matchedKeywords := positiveKeywords.filter (fun k => textContainsKeyword text k)
    cvPreview := text
    extractedAt := c.createdAt }

/-- Function `searchCVs` (storage.ts lines 569–697): load all candidates most
recently created first (`ORDER BY createdAt DESC`), and keep exactly those
passing the keyword criteria, each as a `SearchResult`. -/
def searchCVs (extractFile : String → String) (eventsOf : String → List (Option String))
    (store : List Candidate) (positiveKeywords negativeKeywords : List String)
    (includeNotes : Bool) : List SearchResult :=
  (sortByCreatedDesc store).filterMap (fun c =>
    if searchCVsMatches (searchableText extractFile eventsOf includeNotes c)
        positiveKeywords negativeKeywords then
      some (mkSearchResult extractFile eventsOf includeNotes positiveKeywords c)
    else none)

/-- Case-insensitive substring containment as worded by the specification
claim (for comparison with `textContainsKeyword`): the empty keyword is a
substring of every text. -/
def specCISubstring (text keyword : String) : Bool :=
  jsIncludesCI text keyword

/-! ## Candidate numbering (storage.ts `createCandidate`, lines 457–475) -/

/-- Maximum of a list of naturals, as produced by
`ORDER BY candidateNumber DESC LIMIT 1` over the non-`NULL` numbers. -/
def listMax? : List Nat → Option Nat
  | [] => none
  | n :: rest =>
    some (match listMax? rest with
          | none => n
          | some m => Nat.max n m)

/-- The next candidate number (storage.ts line 466):
`lastCandidate.length > 0 ? (lastCandidate[0].candidateNumber || 99) + 1 : 100`
(`|| 99` models JavaScript falsiness of the number `0`). -/
def nextCandidateNumber (store : List Candidate) : Nat :=
  match listMax? (store.filterMap (fun c => c.candidateNumber)) with
  | none => 100
  | some m => (if m = 0 then 99 else m) + 1

/-- Function `createCandidate` (storage.ts lines 457–475): assign the next candidate
number and insert the row. -/
def createCandidate (store : List Candidate) (ins : Candidate) : Candidate × List Candidate :=
  let numbered := { ins with candidateNumber := some (nextCandidateNumber store) }
  (numbered, store ++ [numbered])

/-- Run a sequence of `createCandidate` calls (no concurrent interleaving),
returning the final store and the assigned numbers in creation order. -/
def runCreates (store : List Candidate) : List Candidate → List Candidate × List Nat
  | [] => (store, [])
  | ins :: rest =>
    let r := createCandidate store ins
    ((runCreates r.2 rest).1, (r.1.candidateNumber.getD 0) :: (runCreates r.2 rest).2)

/-! ## Job applications (storage.ts `createJobApplication`, lines 1068–1119,
and the `POST /api/job-applications` route, routes.ts lines 641–653) -/

/-- A row of the `job_applications` table. -/
structure JobApplication where
  id : String
  candidateId : String
  jobId : String
  status : String
  appliedAt : Nat
  notes : Option String
deriving DecidableEq, Repr

/-- The fields of an insert request for a job application. -/
structure InsertJobApplication where
  candidateId : String
  jobId : String
  status : String
  notes : Option String
deriving DecidableEq, Repr

/-- The application record returned by `createJobApplication`, together
with the extra flags it spreads onto the returned object in the duplicate
cases (`alreadyExisted`, `originalAppliedAt`, `originalStatus`,
`wasUpdated`). -/
structure AppResult where
  app : JobApplication
  alreadyExisted : Bool
  originalAppliedAt : Option Nat
  originalStatus : Option String
  wasUpdated : Bool
deriving DecidableEq, Repr

/-- Outcome of `createJobApplication`: a returned record plus the resulting
store, or the thrown duplicate business error, which carries the existing
application (with an `alreadyExisted` flag) for client-side display; the
store is unchanged in the error case. -/
inductive CreateAppOutcome where
  | ok (result : AppResult) (newStore : List JobApplication)
  | dupError (existing : JobApplication) (newStore : List JobApplication)
deriving DecidableEq, Repr

/-- Function `createJobApplication` (storage.ts lines 1068–1119): look for an
existing application of the same candidate+job pair; if none, insert a new
row; if one exists and the requested status is `interview_scheduled`,
update the existing row's status and return it flagged as already existing
with its original `appliedAt` and status; otherwise throw the duplicate
business error carrying the existing record. -/
def createJobApplication (store : List JobApplication) (newId : String) (now : Nat)
    (ins : InsertJobApplication) : CreateAppOutcome :=
  match store.find? (fun a => a.candidateId = ins.candidateId ∧ a.jobId = ins.jobId) with
  | none =>
    let newApp : JobApplication :=
      { id := newId, candidateId := ins.candidateId, jobId := ins.jobId,
        status := ins.status, appliedAt := now, notes := ins.notes }
    .ok ⟨newApp, false, none, none, false⟩ (store ++ [newApp])
  | some e =>
    if ins.status = "interview_scheduled" then
      let updated := { e with status := "interview_scheduled" }
      .ok ⟨updated, true, some e.appliedAt, some e.status, true⟩
        (store.map (fun a => if a.id = e.id then { a with status := "interview_scheduled" } else a))
    else
      .dupError e store

/-- An HTTP reply of the `POST /api/job-applications` handler. -/
inductive RouteReply where
  | success (code : Nat) (result : AppResult)
  | failure (code : Nat) (message : String)
deriving DecidableEq, Repr

/-- The `POST /api/job-applications` handler (routes.ts lines 641–653):
a body failing schema validation yields `400 Validation error`; a
successful storage call yields `201` with the returned record; any error
thrown by the storage layer — the duplicate business error included — is
caught by the generic `catch` and yields `500 Failed to create job
application`. -/
def postJobApplicationsHandler (store : List JobApplication) (newId : String) (now : Nat)
    (body : Except String InsertJobApplication) : RouteReply :=
  match body with
  | .error _ => .failure 400 "Validation error"
  | .ok ins =>
    match createJobApplication store newId now ins with
    | .ok result _ => .success 201 result
    | .dupError _ _ => .failure 500 "Failed to create job application"

/-! ## Indexed search (storage.ts `searchCandidatesByKeywords`, lines 1375–1399) -/

/-- Outcome of `searchCandidatesByKeywords`, with a flag recording whether
any query was issued to the candidate store. -/
structure IndexedSearchOutcome where
  candidates : List Candidate
  total : Nat
  storeQueried : Bool
deriving Repr

/-- JavaScript `split(' ')` on a character list: split at every single
space character. -/
def splitOnSpace : List Char → List (List Char)
  | [] => [[]]
  | c :: rest =>
    if c = ' ' then [] :: splitOnSpace rest
    else
      match splitOnSpace rest with
      | [] => [[c]]
      | t :: ts => (c :: t) :: ts

/-- The term list of `searchCandidatesByKeywords` (line 1377):
`keywords.split(' ').filter(k => k.trim().length > 0)`. -/
def splitToTerms (keywords : String) : List String :=
  ((splitOnSpace keywords.data).map String.mk).filter (fun k => 0 < (jsTrim k).length)

/-- Function `searchCandidatesByKeywords` (storage.ts lines 1375–1399): an empty
term list returns `(empty, 0)` immediately without querying the store;
otherwise the terms are joined by `&` into a full-text query, the matching
rows with non-`NULL` `cvContent` are counted (`tsMatch` models the
`to_tsvector @@ to_tsquery` predicate and `rankOf` the `ts_rank` score),
and a page ordered by descending rank is returned. -/
def searchCandidatesByKeywords (store : List Candidate) (tsMatch : String → Candidate → Bool)
    (rankOf : String → Candidate → Nat) (keywords : String) (limit offset : Nat) :
    IndexedSearchOutcome :=
  let keywordList := splitToTerms keywords
  if keywordList.isEmpty then
    ⟨[], 0, false⟩
  else
    let searchQuery := String.intercalate " & " (keywordList.map jsTrim)
    let matched := store.filter (fun c => c.cvContent.isSome && tsMatch searchQuery c)
    let total := matched.length
    if total = 0 then
      ⟨[], 0, true⟩
    else
      let ranked := matched.mergeSort (fun a b => rankOf searchQuery b ≤ rankOf searchQuery a)
      ⟨(ranked.drop offset).take limit, total, true⟩

/-! ## A small regular-expression engine

The field-extraction heuristics of routes.ts `extractDataFromText`
(lines 46–208) are JavaScript regexes.  They are embedded here through a
backtracking matcher over a pattern syntax that covers exactly the
constructs those regexes use: literals, character classes, concatenation,
prioritized alternation, greedy star over a character class (every
quantifier in the source patterns quantifies a single character class),
word boundary `\b`, and numbered capture groups.  `reMatchAt` returns the
possible end positions in backtracking priority order, so the head of the
list at the leftmost matching start position is the JavaScript match. -/

/-- Pattern syntax. -/
inductive RE where
  | eps
  | lit (c : Char)
  | cls (p : Char → Bool)
  | seq (a b : RE)
  | alt (a b : RE)
  | starCls (p : Char → Bool)
  | wordB
  | group (idx : Nat) (r : RE)

/-- Greedy `r?`. -/
def RE.opt (r : RE) : RE := .alt r .eps

/-- Pattern `r` repeated exactly `n` times. -/
def RE.rep (r : RE) : Nat → RE
  | 0 => .eps
  | n + 1 => .seq r (RE.rep r n)

/-- Greedy `p+` over a character class. -/
def RE.plusCls (p : Char → Bool) : RE := .seq (.cls p) (.starCls p)

/-- A sequence of literal characters. -/
def litsRE (s : String) : RE :=
  s.data.foldr (fun c r => RE.seq (.lit c) r) .eps

/-- JavaScript `\w`: ASCII letters, digits and underscore. -/
def isWordChar (c : Char) : Bool :=
  c.isAlpha || c.isDigit || c = '_'

/-- Whether position `i` in `s` is a JavaScript word boundary `\b`. -/
def wordBoundaryAt (s : List Char) (i : Nat) : Bool :=
  let before := match s.get? (i - 1) with
    | some c => i ≠ 0 && isWordChar c
    | none => false
  let after := match s.get? i with
    | some c => isWordChar c
    | none => false
  before != after

/-- Length of the maximal run of `p`-characters starting at position `i`. -/
def runLength (p : Char → Bool) (s : List Char) (i : Nat) : Nat :=
  ((s.drop i).takeWhile p).length

/-- Backtracking matcher: all ways to match `r` in `s` starting at
position `i`, as pairs of an end position and a capture list
`(group, start, stop)`, in backtracking priority order. -/
def reMatchAt (s : List Char) : RE → Nat → List (Nat × List (Nat × Nat × Nat))
  | .eps, i => [(i, [])]
  | .lit c, i =>
    match s.get? i with
    | some d => if d = c then [(i + 1, [])] else []
    | none => []
  | .cls p, i =>
    match s.get? i with
    | some d => if p d then [(i + 1, [])] else []
    | none => []
  | .seq a b, i =>
    (reMatchAt s a i).flatMap (fun m =>
      (reMatchAt s b m.1).map (fun m2 => (m2.1, m.2 ++ m2.2)))
  | .alt a b, i => reMatchAt s a i ++ reMatchAt s b i
  | .starCls p, i =>
    ((List.range (runLength p s i + 1)).reverse).map (fun k => (i + k, []))
  | .wordB, i => if wordBoundaryAt s i then [(i, [])] else []
  | .group g r, i =>
    (reMatchAt s r i).map (fun m => (m.1, m.2 ++ [(g, i, m.1)]))

/-- First match of `r` in `s` at a start position ≥ `start`: the JavaScript
leftmost match, as `(matchStart, matchEnd, captures)`. -/
def reFirstMatchFrom (s : List Char) (r : RE) (start : Nat) :
    Option (Nat × Nat × List (Nat × Nat × Nat)) :=
  ((List.range (s.length + 1 - start)).map (· + start)).findSome? (fun i =>
    match reMatchAt s r i with
    | [] => none
    | m :: _ => some (i, m.1, m.2))

/-- First match of `r` in `s` (JavaScript `String.prototype.match` without
the `g` flag, position and captures of the match). -/
def reFirstMatch (s : List Char) (r : RE) : Option (Nat × Nat × List (Nat × Nat × Nat)) :=
  reFirstMatchFrom s r 0

/-- All matches of `r` in `s` (JavaScript `match` with the `g` flag):
non-overlapping leftmost matches, a zero-length match advancing by one. -/
def reAllMatchesGo (s : List Char) (r : RE) : Nat → Nat → List (Nat × Nat)
  | 0, _ => []
  | fuel + 1, pos =>
    match reFirstMatchFrom s r pos with
    | none => []
    | some (i, j, _) =>
      (i, j) :: reAllMatchesGo s r fuel (if j = i then j + 1 else j)

/-- All matches of `r` in `s`, as `(start, stop)` spans. -/
def reAllMatches (s : List Char) (r : RE) : List (Nat × Nat) :=
  reAllMatchesGo s r (s.length + 1) 0

/-- The text of the span `(start, stop)` of `s`. -/
def spanStr (s : List Char) (start stop : Nat) : String :=
  ⟨(s.drop start).take (stop - start)⟩

/-- The text captured by group `g` (empty when the group did not
participate in the match). -/
def groupStr (s : List Char) (caps : List (Nat × Nat × Nat)) (g : Nat) : String :=
  match caps.find? (fun t => t.1 = g) with
  | some t => spanStr s t.2.1 t.2.2
  | none => ""

/-! ## Field extraction (routes.ts `extractDataFromText`, lines 46–208) -/

/-- ASCII digit class `\d`. -/
def digitC (c : Char) : Bool := c.isDigit

/-- ASCII letter class `[a-zA-Z]`. -/
def alphaC (c : Char) : Bool := c.isAlpha

/-- The class `[a-zA-Z0-9._-]` of the email pattern. -/
def emailC (c : Char) : Bool :=
  c.isAlpha || c.isDigit || c = '.' || c = '_' || c = '-'

/-- The class `[-\s]` of the phone patterns. -/
def dashSpaceC (c : Char) : Bool := c = '-' || isJsSpace c

/-- The Hebrew-letter class `[א-ת]`. -/
def hebrewC (c : Char) : Bool := 'א' ≤ c && c ≤ 'ת'

/-- The class `[:\s]` of the name-prefix pattern. -/
def colonSpaceC (c : Char) : Bool := c = ':' || isJsSpace c

/-- The quote class `['"]` of the street pattern. -/
def quoteC (c : Char) : Bool := c = '\'' || c = '"'

/-- Email pattern `/([a-zA-Z0-9._-]+@[a-zA-Z0-9._-]+\.[a-zA-Z]{2,})/g`
(routes.ts line 75). -/
def emailRE : RE :=
  .seq (RE.plusCls emailC) (.seq (.lit '@') (.seq (RE.plusCls emailC)
    (.seq (.lit '.') (.seq (.cls alphaC) (RE.plusCls alphaC)))))

/-- Mobile pattern `/(05\d{1}[-\s]?\d{7}|05\d{8})/g` (line 82). -/
def mobileRE : RE :=
  .alt
    (.seq (.lit '0') (.seq (.lit '5') (.seq (.cls digitC)
      (.seq (RE.opt (.cls dashSpaceC)) (RE.rep (.cls digitC) 7)))))
    (.seq (.lit '0') (.seq (.lit '5') (RE.rep (.cls digitC) 8)))

/-- Landline pattern `/(0[3489][-\s]?\d{7})/g` (line 89). -/
def phoneRE : RE :=
  .seq (.lit '0') (.seq (.cls (fun c => c = '3' || c = '4' || c = '8' || c = '9'))
    (.seq (RE.opt (.cls dashSpaceC)) (RE.rep (.cls digitC) 7)))

/-- Street pattern
`/(?:רחוב|רח['"]|דרך|שדרות|שד['"])\s*([א-ת\s]+)\s*(\d+)/i` (line 104). -/
def streetRE : RE :=
  .seq
    (.alt (litsRE "רחוב")
      (.alt (.seq (litsRE "רח") (.cls quoteC))
        (.alt (litsRE "דרך")
          (.alt (litsRE "שדרות") (.seq (litsRE "שד") (.cls quoteC))))))
    (.seq (.starCls isJsSpace)
      (.seq (.group 1 (RE.plusCls (fun c => hebrewC c || isJsSpace c)))
        (.seq (.starCls isJsSpace) (.group 2 (RE.plusCls digitC)))))

/-- Zip pattern `/\b(\d{5,7})\b/` (line 112): five required digits and two
greedy optional ones between word boundaries. -/
def zipRE : RE :=
  .seq .wordB (.seq (.group 1 (.seq (RE.rep (.cls digitC) 5)
    (.seq (RE.opt (.cls digitC)) (RE.opt (.cls digitC))))) .wordB)

/-- Name pattern
`/(?:שם[:\s]*)?([א-ת]{2,})\s+([א-ת]{2,})|([A-Z][a-z]+)\s+([A-Z][a-z]+)/g`
(line 123); only the whole match (`match[0]`) is consumed by the code. -/
def nameRE : RE :=
  .alt
    (.seq (RE.opt (.seq (litsRE "שם") (.starCls colonSpaceC)))
      (.seq (RE.plusCls hebrewC) (.seq (.cls hebrewC)
        (.seq (RE.plusCls isJsSpace) (.seq (RE.plusCls hebrewC) (.cls hebrewC))))))
    (.seq (.cls (fun c => 'A' ≤ c && c ≤ 'Z')) (.seq (RE.plusCls (fun c => 'a' ≤ c && c ≤ 'z'))
      (.seq (RE.plusCls isJsSpace)
        (.seq (.cls (fun c => 'A' ≤ c && c ≤ 'Z')) (RE.plusCls (fun c => 'a' ≤ c && c ≤ 'z'))))))

/-- The prefix `/שם[:\s]*/` removed from the matched name (line 126). -/
def namePrefixRE : RE :=
  .seq (litsRE "שם") (.starCls colonSpaceC)

/-- Experience pattern
`/(\d+)\s*(?:שנ(?:ה|ות|ים)?\s*(?:של\s*)?(?:ניסיון|עבודה)|years?\s*(?:of\s*)?experience)/i`
(line 149), matched against the lower-cased text. -/
def experienceRE : RE :=
  .seq (.group 1 (RE.plusCls digitC)) (.seq (.starCls isJsSpace)
    (.alt
      (.seq (litsRE "שנ")
        (.seq (RE.opt (.alt (litsRE "ה") (.alt (litsRE "ות") (litsRE "ים"))))
          (.seq (.starCls isJsSpace)
            (.seq (RE.opt (.seq (litsRE "של") (.starCls isJsSpace)))
              (.alt (litsRE "ניסיון") (litsRE "עבודה"))))))
      (.seq (litsRE "year") (.seq (RE.opt (.lit 's'))
        (.seq (.starCls isJsSpace)
          (.seq (RE.opt (.seq (litsRE "of") (.starCls isJsSpace)))
            (litsRE "experience")))))))

/-- National-ID pattern `/\b(\d{9})\b/` (line 156). -/
def nationalIdRE : RE :=
  .seq .wordB (.seq (.group 1 (RE.rep (.cls digitC) 9)) .wordB)

/-- Driving-license pattern `/רישיון\s*נהיגה|ר\.?\s*נ\.?|driving\s*license/i`
(line 181), matched against the lower-cased text. -/
def licenseRE : RE :=
  .alt (.seq (litsRE "רישיון") (.seq (.starCls isJsSpace) (litsRE "נהיגה")))
    (.alt (.seq (.lit 'ר') (.seq (RE.opt (.lit '.'))
      (.seq (.starCls isJsSpace) (.seq (.lit 'נ') (RE.opt (.lit '.'))))))
      (.seq (litsRE "driving") (.seq (.starCls isJsSpace) (litsRE "license"))))

/-- Secondary-phone pattern `/(0[2-9][-\s]?\d{7})/g` (line 187). -/
def phone2RE : RE :=
  .seq (.lit '0') (.seq (.cls (fun c => '2' ≤ c && c ≤ '9'))
    (.seq (RE.opt (.cls dashSpaceC)) (RE.rep (.cls digitC) 7)))

/-- The city list of routes.ts lines 35–43. -/
def israeliCities : List String :=
  ["תל אביב", "ירושלים", "חיפה", "ראשון לציון", "פתח תקווה", "אשדוד", "נתניה", "באר שבע",
   "בני ברק", "חולון", "רמת גן", "אשקלון", "רחובות", "בת ים", "כפר סבא", "הרצליה",
   "חדרה", "מודיעין", "נצרת", "לוד", "רעננה", "רמלה", "גבעתיים", "נהריה", "אילת",
   "טבריה", "קריית גת", "אור יהודה", "יהוד", "דימונה", "טירה", "אום אל פחם",
   "מגדל העמק", "שפרעם", "אכסאל", "קלנסווה", "באקה אל גרביה", "סחנין", "משהד",
   "ערערה", "כפר קאסם", "אריאל", "מעלה אדומים", "בית שמש", "אלעד", "טמרה",
   "קריית מלאכי", "מגדל", "יקנעם", "נוף הגליל", "קצרין", "מטולה", "ראש פינה"]

/-- The profession keyword list of routes.ts lines 135–139. -/
def professionKeywords : List String :=
  ["מפתח", "מתכנת", "מהנדס", "מעצב", "רופא", "עורך דין", "רואה חשבון",
   "מנהל", "סמנכ\"ל", "מנכ\"ל", "יועץ", "אדריכל", "מורה", "מרצה",
   "developer", "engineer", "designer", "manager", "analyst", "consultant"]

/-- The gender keyword list of routes.ts line 163. -/
def genderKeywords : List String :=
  ["זכר", "נקבה", "גבר", "אישה", "male", "female", "man", "woman"]

/-- The marital-status keyword list of routes.ts line 172. -/
def maritalKeywords : List String :=
  ["נשוי", "רווק", "גרוש", "אלמן", "נשואה", "רווקה", "גרושה", "אלמנה",
   "married", "single", "divorced", "widowed"]

/-- The achievements keyword list of routes.ts line 194. -/
def achievementKeywords : List String :=
  ["הישגים", "פרסים", "הכרה", "הצטיינות", "achievements", "awards", "recognition"]

/-- JavaScript `replace(/[-\s]/g, '')`. -/
def stripDashSpace (s : String) : String :=
  ⟨s.data.filter (fun c => !dashSpaceC c)⟩

/-- First index at which `pat` occurs in the second list (JavaScript
`indexOf` on strings). -/
def indexOfSubL (pat : List Char) : List Char → Option Nat
  | [] => if pat.isEmpty then some 0 else none
  | c :: rest =>
    if pat.isPrefixOf (c :: rest) then some 0
    else (indexOfSubL pat rest).map (· + 1)

/-- Fuel-indexed worker for `splitWsTokens`; the fuel is an upper bound on
the input length, so the fuel-exhausted branch is never reached. -/
def splitWsGo : Nat → List Char → List (List Char)
  | _, [] => [[]]
  | 0, l => [l]
  | fuel + 1, c :: rest =>
    if isJsSpace c then [] :: splitWsGo fuel (rest.dropWhile isJsSpace)
    else
      match splitWsGo fuel rest with
      | [] => [[c]]
      | t :: ts => (c :: t) :: ts

/-- JavaScript `split(/\s+/)` on a character list. -/
def splitWsTokens (l : List Char) : List (List Char) :=
  splitWsGo l.length l

/-- Numeric value of a digit string (JavaScript `parseInt` on the captured
all-digit group). -/
def natOfDigits (s : String) : Nat :=
  s.data.foldl (fun n c => n * 10 + (c.toNat - '0'.toNat)) 0

/-- Result `match.replace(/שם[:\s]*/, '')` (line 126): remove the first
occurrence of the name prefix. -/
def removeNamePrefix (s : String) : String :=
  match reFirstMatch s.data namePrefixRE with
  | some (i, j, _) => ⟨s.data.take i ++ s.data.drop j⟩
  | none => s

/-- The head window of `extractDataFromText` (routes.ts line 51):
`text.substring(0, Math.floor(text.length * 0.3))`. -/
def headWindow (text : String) : List Char :=
  text.data.take (text.data.length * 3 / 10)

/-- The record populated by `extractDataFromText` (routes.ts lines 54–72). -/
structure ExtractedData where
  firstName : String
  lastName : String
  email : String
  mobile : String
  phone : String
  phone2 : String
  nationalId : String
  city : String
  street : String
  houseNumber : String
  zipCode : String
  gender : String
  maritalStatus : String
  drivingLicense : String
  profession : String
  experience : Option Nat
  achievements : String
deriving DecidableEq, Repr

/-- The all-empty extraction result: every string field empty,
`experience` null. -/
def emptyExtracted : ExtractedData :=
  { firstName := "", lastName := "", email := "", mobile := "", phone := "",
    phone2 := "", nationalId := "", city := "", street := "", houseNumber := "",
    zipCode := "", gender := "", maritalStatus := "", drivingLicense := "",
    profession := "", experience := none, achievements := "" }

/-- Function `extractDataFromText` (routes.ts lines 46–208): apply each heuristic
over the head window or the full text and populate the field record;
a heuristic that finds nothing leaves its field empty. -/
def extractDataFromText (text : String) : ExtractedData :=
  let tl := text.data
  let u := headWindow text
  let emailV := match reFirstMatch u emailRE with
    | some (i, j, _) => spanStr u i j
    | none => ""
  let mobileV := match reFirstMatch u mobileRE with
    | some (i, j, _) => stripDashSpace (spanStr u i j)
    | none => ""
  let phoneV := match reFirstMatch u phoneRE with
    | some (i, j, _) => stripDashSpace (spanStr u i j)
    | none => ""
  let cityV := match israeliCities.find? (fun city =>
      jsIncludes ⟨u⟩ city || jsIncludes text city) with
    | some city => city
    | none => ""
  let streetHouse := match reFirstMatch u streetRE with
    | some (_, _, caps) => (jsTrim (groupStr u caps 1), groupStr u caps 2)
    | none => ("", "")
  let zipV := match reFirstMatch u zipRE with
    | some (_, _, caps) =>
      let z := groupStr u caps 1
      if !jsIncludes mobileV z && !jsIncludes phoneV z then
        if 5 ≤ z.length ∧ z.length ≤ 7 then z else ""
      else ""
    | none => ""
  let nameVals := match reFirstMatch u nameRE with
    | some (i, j, _) =>
      let fullName := jsTrim (removeNamePrefix (spanStr u i j))
      let parts := splitWsTokens fullName.data
      if 2 ≤ parts.length then
        (String.mk (parts.getD 0 []), String.mk (parts.getD 1 []))
      else ("", "")
    | none => ("", "")
  let professionV := match professionKeywords.find? (fun p => jsIncludesCI text p) with
    | some p => p
    | none => ""
  let experienceV := match reFirstMatch (lowerL tl) experienceRE with
    | some (_, _, caps) => some (natOfDigits (groupStr (lowerL tl) caps 1))
    | none => none
  let nationalIdV := match reFirstMatch u nationalIdRE with
    | some (_, _, caps) => groupStr u caps 1
    | none => ""
  let genderV := match genderKeywords.find? (fun g => jsIncludesCI text g) with
    | some g => g
    | none => ""
  let maritalV := match maritalKeywords.find? (fun m => jsIncludesCI text m) with
    | some m => m
    | none => ""
  let licenseV := if (reFirstMatch (lowerL tl) licenseRE).isSome then "כן" else ""
  let phone2V :=
    let ms := reAllMatches u phone2RE
    match ms.get? 1 with
    | some (i, j) =>
      if spanStr u i j ≠ phoneV then stripDashSpace (spanStr u i j) else ""
    | none => ""
  let achievementsV := match achievementKeywords.find? (fun a => jsIncludesCI text a) with
    | some a =>
      match indexOfSubL (lowerL a.data) (lowerL tl) with
      | some idx => jsTrim ⟨(tl.drop idx).take 300⟩
      | none => ""
    | none => ""
  { firstName := nameVals.1
    lastName := nameVals.2
    email := emailV
    mobile := mobileV
    phone := phoneV
    phone2 := phone2V
    nationalId := nationalIdV
    city := cityV
    street := streetHouse.1
    houseNumber := streetHouse.2
    zipCode := zipV
    gender := genderV
    maritalStatus := maritalV
    drivingLicense := licenseV
    profession := professionV
    experience := experienceV
    achievements := achievementsV }

/-- Whether none of the heuristics of `extractDataFromText` finds
anything in `text`. -/
def noHeuristicMatches (text : String) : Bool :=
  let tl := text.data
  let u := headWindow text
  (reFirstMatch u emailRE).isNone &&
  (reFirstMatch u mobileRE).isNone &&
  (reFirstMatch u phoneRE).isNone &&
  (israeliCities.find? (fun city => jsIncludes ⟨u⟩ city || jsIncludes text city)).isNone &&
  (reFirstMatch u streetRE).isNone &&
  (reFirstMatch u zipRE).isNone &&
  (reFirstMatch u nameRE).isNone &&
  (professionKeywords.find? (fun p => jsIncludesCI text p)).isNone &&
  (reFirstMatch (lowerL tl) experienceRE).isNone &&
  (reFirstMatch u nationalIdRE).isNone &&
  (genderKeywords.find? (fun g => jsIncludesCI text g)).isNone &&
  (maritalKeywords.find? (fun m => jsIncludesCI text m)).isNone &&
  (reFirstMatch (lowerL tl) licenseRE).isNone &&
  (reAllMatches u phone2RE).isEmpty &&
  (achievementKeywords.find? (fun a => jsIncludesCI text a)).isNone

/-! ## Concrete records used by counterexamples and witnesses -/

/-- A candidate with every optional field absent. -/
def blankCand : Candidate :=
  { id := "", firstName := "", lastName := "", email := "", mobile := none,
    nationalId := none, candidateNumber := none, profession := none, city := none,
    cvContent := none, cvPath := none, notes := none, recruitmentSource := none,
    createdAt := 0 }

/-- A stored candidate whose mobile carries a bare `972` international
prefix. -/
def c1cand : Candidate :=
  { blankCand with
      id := "c1", firstName := "Alice", lastName := "Levi",
      email := "alice@x.com", mobile := some "972501234567", createdAt := 1 }

/-- A query for `c1cand`'s phone number in local format. -/
def c1query : ContactQuery :=
  ⟨some "0501234567", none, none⟩

/-- An existing candidate with populated name, mobile and notes. -/
def ex3 : Candidate :=
  { blankCand with
      id := "c3", firstName := "Alice", lastName := "Levi",
      email := "alice@x.com", mobile := some "0501111111", notes := some "prior notes",
      createdAt := 1 }

/-- An inbound message whose extracted fields all differ from `ex3`'s. -/
def d3 : ParsedCandidate :=
  { firstName := some "Bob", lastName := some "Cohen", email := "alice@x.com",
    phone := some "0502222222", jobCode := none, originalSubject := "S",
    originalBody := "B" }

/-- A stored candidate reachable by phone but not by the inbound pipeline's
email lookup. -/
def c4cand : Candidate :=
  { blankCand with
      id := "c4", firstName := "Alice", lastName := "Levi",
      email := "alice@x.com", mobile := some "0501234567", createdAt := 1 }

/-- A candidate whose searchable text is just a name. -/
def c5cand : Candidate :=
  { blankCand with
      id := "c5", firstName := "Java", lastName := "Dev",
      email := "e@x.com", createdAt := 1 }

/-- A file-extraction oracle that always fails (returns empty text). -/
def noExtract : String → String := fun _ => ""

/-- An event oracle for candidates without events. -/
def noEvents : String → List (Option String) := fun _ => []

/-- An existing job application for the pair `cand1`/`job1`. -/
def app7 : JobApplication :=
  { id := "a1", candidateId := "cand1", jobId := "job1", status := "submitted",
    appliedAt := 3, notes := none }

/-- A manual insert request duplicating `app7`'s candidate+job pair. -/
def ins7 : InsertJobApplication :=
  { candidateId := "cand1", jobId := "job1", status := "submitted", notes := none }

/-- A duplicate insert request asking for the `interview_scheduled` status. -/
def ins10 : InsertJobApplication :=
  { candidateId := "cand1", jobId := "job1", status := "interview_scheduled", notes := none }

/-! # Theorems

Helper lemmas first, then one theorem per claim (with counterexamples and
witnesses where the claim's status requires them). -/

theorem mem_stripSeps_not_sep {c : Char} {l : List Char} (h : c ∈ stripSeps l) :
    isPhoneSep c = false := by
  have h2 := (List.mem_filter.mp h).2
  simpa using h2

theorem mem_collapse972 {c : Char} {l : List Char} (h : c ∈ collapse972 l) :
    c = '0' ∨ c ∈ l := by
  unfold collapse972 at h
  split_ifs at h
  · rcases List.mem_cons.mp h with h0 | hd
    · exact Or.inl h0
    · exact Or.inr (List.mem_of_mem_drop hd)
  · rcases List.mem_cons.mp h with h0 | hd
    · exact Or.inl h0
    · exact Or.inr (List.mem_of_mem_drop hd)
  · exact Or.inr h

theorem mem_pad9 {c : Char} {l : List Char} (h : c ∈ pad9 l) :
    c = '0' ∨ c ∈ l := by
  unfold pad9 at h
  split_ifs at h
  · exact List.mem_cons.mp h
  · exact Or.inr h

theorem stripSeps_eq_self {l : List Char} (h : ∀ c ∈ l, isPhoneSep c = false) :
    stripSeps l = l :=
  List.filter_eq_self.mpr (fun c hc => by simp [h c hc])

theorem normalizePhoneL_no_seps {c : Char} {l : List Char}
    (hc : c ∈ normalizePhoneL l) : isPhoneSep c = false := by
  unfold normalizePhoneL at hc
  rcases mem_pad9 hc with h0 | hc2
  · subst h0; decide
  rcases mem_collapse972 hc2 with h0 | hc3
  · subst h0; decide
  · exact mem_stripSeps_not_sep hc3

theorem collapse972_take_ne (l : List Char) :
    (collapse972 l).take 4 ≠ ['+', '9', '7', '2'] ∧
    (collapse972 l).take 3 ≠ ['9', '7', '2'] := by
  unfold collapse972
  split_ifs with h4 h3
  · constructor <;> simp
  · constructor <;> simp
  · exact ⟨h4, h3⟩

theorem collapse972_eq_self {l : List Char} (h4 : l.take 4 ≠ ['+', '9', '7', '2'])
    (h3 : l.take 3 ≠ ['9', '7', '2']) : collapse972 l = l := by
  unfold collapse972
  rw [if_neg h4, if_neg h3]

theorem pad9_cases (l : List Char) : pad9 l = '0' :: l ∨ pad9 l = l := by
  unfold pad9
  split_ifs <;> simp

theorem pad9_idem (l : List Char) : pad9 (pad9 l) = pad9 l := by
  by_cases h : l.length = 9 ∧ l.head? ≠ some '0'
  · have h1 : pad9 l = '0' :: l := by rw [pad9, if_pos h]
    rw [h1, pad9, if_neg]
    simp
  · have h1 : pad9 l = l := by rw [pad9, if_neg h]
    rw [h1, pad9, if_neg h]

theorem normalizePhoneL_idem (l : List Char) :
    normalizePhoneL (normalizePhoneL l) = normalizePhoneL l := by
  have hstrip : stripSeps (normalizePhoneL l) = normalizePhoneL l :=
    stripSeps_eq_self (fun c hc => normalizePhoneL_no_seps hc)
  have hcol : collapse972 (normalizePhoneL l) = normalizePhoneL l := by
    rcases pad9_cases (collapse972 (stripSeps l)) with hp | hp
    · rw [normalizePhoneL, hp]
      exact collapse972_eq_self (by simp) (by simp)
    · rw [normalizePhoneL, hp]
      obtain ⟨t4, t3⟩ := collapse972_take_ne (stripSeps l)
      exact collapse972_eq_self t4 t3
  have hpad : pad9 (normalizePhoneL l) = normalizePhoneL l := by
    rw [normalizePhoneL, pad9_idem]
  rw [normalizePhoneL, hstrip, hcol, hpad]

/-- C2: phone normalization is idempotent for every input string, and the
two example inputs `+972501234567` and `0501234567` both normalize to
`0501234567`. -/
theorem C2_normalizePhone_idempotent :
    (∀ s : String, normalizePhone (normalizePhone s) = normalizePhone s) ∧
    normalizePhone "+972501234567" = "0501234567" ∧
    normalizePhone "0501234567" = "0501234567" := by
  refine ⟨fun s => ?_, by decide, by decide⟩
  show (⟨normalizePhoneL (normalizePhone s).data⟩ : String) = ⟨normalizePhoneL s.data⟩
  exact congrArg String.mk (normalizePhoneL_idem s.data)

/-- C1 counterexample: the stored mobile `972501234567`, normalized by the
same `normalizePhone` as the query, equals the normalized query mobile
`0501234567` — the claim's disjunction holds of the stored candidate — yet
`findCandidateByContactInfo` returns nothing, because the SQL side applies
only the weaker `REPLACE` chain to the stored value. -/
theorem C1_counterexample :
    specContactMatches c1query c1cand = true ∧
    c1cand ∈ [c1cand] ∧
    findCandidateByContactInfo [c1cand] c1query = none := by
  refine ⟨by decide, by simp, by decide⟩

/-- C1 (amended): `findCandidateByContactInfo` returns `some c` exactly
when at least one condition was pushed, `c` satisfies the pushed
disjunction — with the *stored* mobile rewritten only by
`REPLACE(-,'')`, `REPLACE(' ','')`, `REPLACE('+972','0')`, not by the full
query-side normalization — and `c` is the first such row in the store's
return order (the query has no `ORDER BY`, so no recency preference). -/
theorem C1_find_candidate_characterization (store : List Candidate) (q : ContactQuery)
    (c : Candidate) :
    findCandidateByContactInfo store q = some c ↔
      anyCondActive q = true ∧ contactRowMatches q c = true ∧
      ∃ pre post, store = pre ++ c :: post ∧
        ∀ d ∈ pre, contactRowMatches q d = false := by
  have hfind : anyCondActive q = true →
      findCandidateByContactInfo store q = store.find? (contactRowMatches q) := by
    intro hc
    have h1 : (jsTruthy q.mobile || jsTruthy q.email || jsTruthy q.nationalId) = true := by
      cases hm : jsTruthy q.mobile <;> cases he : jsTruthy q.email <;>
        cases hn : jsTruthy q.nationalId <;>
        simp_all [anyCondActive, mobileCondActive, emailCondActive, nationalIdCondActive]
    unfold findCandidateByContactInfo
    rw [h1, hc]
    rfl
  have hnone : anyCondActive q = false →
      findCandidateByContactInfo store q = none := by
    intro hc
    unfold findCandidateByContactInfo
    cases hg : (jsTruthy q.mobile || jsTruthy q.email || jsTruthy q.nationalId)
    · rfl
    · rw [hc]
      rfl
  cases hA : anyCondActive q
  · rw [hnone hA]
    simp [hA]
  · rw [hfind hA, List.find?_eq_some]
    constructor
    · rintro ⟨hc, pre, post, hsplit, hpre⟩
      exact ⟨rfl, hc, pre, post, hsplit, fun d hd => by simpa using hpre d hd⟩
    · rintro ⟨-, hc, pre, post, hsplit, hpre⟩
      exact ⟨hc, pre, post, hsplit, fun d hd => by simpa using hpre d hd⟩

/-- C3 counterexample: the existing candidate `ex3` already has a first
name (`Alice`), yet the merge replaces it with the extracted `Bob` — the
extracted value is not taken "only when the existing record lacks the
field". -/
theorem C3_counterexample :
    ex3.firstName = "Alice" ∧ d3.firstName = some "Bob" ∧
    (mergeCandidateUpdate ex3 d3).firstName = "Bob" ∧
    (mergeCandidateUpdate ex3 d3).mobile = some "0502222222" := by
  exact ⟨rfl, rfl, by decide, by decide⟩

/-- C3 (amended): the merge sets first name, last name and mobile to the
extracted value whenever the extracted value is non-empty, keeping the
existing value only as a fallback; the notes become the existing notes
(empty when absent) with the new message's subject and truncated body
appended as a block, trimmed; the stored email is left unchanged. -/
theorem C3_merge_update_fields (ex : Candidate) (d : ParsedCandidate) :
    ((mergeCandidateUpdate ex d).firstName =
      if jsTruthy d.firstName then d.firstName.getD "" else ex.firstName) ∧
    ((mergeCandidateUpdate ex d).lastName =
      if jsTruthy d.lastName then d.lastName.getD "" else ex.lastName) ∧
    ((mergeCandidateUpdate ex d).mobile =
      if jsTruthy d.phone then d.phone else ex.mobile) ∧
    ((mergeCandidateUpdate ex d).notes =
      some (jsTrim ((ex.notes.getD "") ++ emailNotesBlock d))) ∧
    (mergeCandidateUpdate ex d).email = ex.email :=
  ⟨rfl, rfl, rfl, rfl, rfl⟩

/-- C4 counterexample: the identity resolver `findCandidateByContactInfo`,
applied to the extracted phone and email, finds the stored candidate
`c4cand` (its normalized mobile equals the extracted phone), yet the
inbound pipeline's own decision — an exact-email lookup — finds nothing
and therefore creates a new profile. -/
theorem C4_counterexample :
    findCandidateByContactInfo [c4cand] ⟨some "0501234567", some "bob@y.com", none⟩ =
      some c4cand ∧
    createCandidateFromEmailDecision [c4cand] "bob@y.com" = none := by
  exact ⟨by decide, by decide⟩

/-- C4 (amended): the inbound pipeline treats a candidate as existing iff
the page returned by `getCandidates(100, 0, email)` — the first 100
most-recently-created candidates whose name, email or profession contains
the extracted email case-insensitively — contains a candidate whose email
equals the extracted email exactly (case-sensitively); the extracted phone
is not consulted, and the candidate returned for update is such a
candidate. -/
theorem C4_decision_characterization (store : List Candidate) (email : String) :
    ((createCandidateFromEmailDecision store email).isSome ↔
      ∃ c ∈ getCandidatesPage store email 100 0, c.email = email) ∧
    ∀ c, createCandidateFromEmailDecision store email = some c → c.email = email := by
  constructor
  · unfold createCandidateFromEmailDecision
    rw [List.find?_isSome]
    constructor
    · rintro ⟨c, hc, hp⟩
      exact ⟨c, hc, by simpa using hp⟩
    · rintro ⟨c, hc, hp⟩
      exact ⟨c, hc, by simpa using hp⟩
  · intro c h
    have := List.find?_some h
    simpa using this

theorem mem_insertByCreated {a x : Candidate} :
    ∀ {l : List Candidate}, a ∈ insertByCreated x l ↔ a = x ∨ a ∈ l := by
  intro l
  induction l with
  | nil => simp [insertByCreated]
  | cons d rest ih =>
    unfold insertByCreated
    split_ifs
    · simp [List.mem_cons]
    · simp only [List.mem_cons, ih]
      tauto

theorem mem_sortByCreatedDesc {a : Candidate} :
    ∀ {l : List Candidate}, a ∈ sortByCreatedDesc l ↔ a ∈ l := by
  intro l
  induction l with
  | nil => simp [sortByCreatedDesc]
  | cons d rest ih =>
    show a ∈ insertByCreated d (sortByCreatedDesc rest) ↔ _
    rw [mem_insertByCreated]
    simp only [List.mem_cons, ih]

/-- C5 counterexample: the empty string is (vacuously) a case-insensitive
substring of the candidate's searchable text, so by the claim the
candidate must appear in the results of a search with
`positiveKeywords = [""]`; but `textContainsKeyword` treats an empty
keyword as falsy and matches nothing, so `searchCVs` returns no result. -/
theorem C5_counterexample :
    specCISubstring (searchableText noExtract noEvents false c5cand) "" = true ∧
    searchCVs noExtract noEvents [c5cand] [""] [] false = [] := by
  exact ⟨by decide, by decide⟩

/-- C5 (amended): a result appears in the naive search exactly for the
stored candidates passing the criteria of `textContainsKeyword` — which
requires both the searchable text and the keyword to be non-empty — and
its `matchedKeywords` are exactly the positive keywords for which
`textContainsKeyword` holds of the candidate's searchable text. -/
theorem C5_search_characterization (extractFile : String → String)
    (eventsOf : String → List (Option String)) (store : List Candidate)
    (pos neg : List String) (includeNotes : Bool) (r : SearchResult) :
    r ∈ searchCVs extractFile eventsOf store pos neg includeNotes ↔
      ∃ c ∈ store,
        (pos = [] ∨ ∃ k ∈ pos,
          textContainsKeyword (searchableText extractFile eventsOf includeNotes c) k = true) ∧
        (∀ k ∈ neg,
          textContainsKeyword (searchableText extractFile eventsOf includeNotes c) k = false) ∧
        r = mkSearchResult extractFile eventsOf includeNotes pos c ∧
        r.matchedKeywords = pos.filter
          (fun k => textContainsKeyword (searchableText extractFile eventsOf includeNotes c) k) := by
  unfold searchCVs
  rw [List.mem_filterMap]
  constructor
  · rintro ⟨c, hc, heq⟩
    rw [mem_sortByCreatedDesc] at hc
    by_cases hm : searchCVsMatches (searchableText extractFile eventsOf includeNotes c)
        pos neg = true
    · rw [if_pos hm] at heq
      have hr := (Option.some.inj heq).symm
      unfold searchCVsMatches at hm
      rw [Bool.and_eq_true] at hm
      refine ⟨c, hc, ?_, ?_, hr, ?_⟩
      · rcases Bool.or_eq_true_iff.mp hm.1 with h | h
        · exact Or.inl (List.isEmpty_iff.mp h)
        · obtain ⟨k, hk, hkt⟩ := List.any_eq_true.mp h
          exact Or.inr ⟨k, hk, hkt⟩
      · intro k hk
        have := List.all_eq_true.mp hm.2 k hk
        simpa using this
      · rw [hr]
        simp [mkSearchResult]
    · rw [if_neg hm] at heq
      exact absurd heq (by simp)
  · rintro ⟨c, hc, hpos, hneg, hr, -⟩
    refine ⟨c, mem_sortByCreatedDesc.mpr hc, ?_⟩
    have hm : searchCVsMatches (searchableText extractFile eventsOf includeNotes c)
        pos neg = true := by
      unfold searchCVsMatches
      rw [Bool.and_eq_true]
      constructor
      · rw [Bool.or_eq_true]
        rcases hpos with h | hex
        · exact Or.inl (List.isEmpty_iff.mpr h)
        · obtain ⟨k, hk, hkt⟩ := hex
          exact Or.inr (List.any_eq_true.mpr ⟨k, hk, hkt⟩)
      · rw [List.all_eq_true]
        intro k hk
        simp [hneg k hk]
    rw [if_pos hm, hr]

theorem listMax?_cons (n : Nat) (t : List Nat) :
    listMax? (n :: t) =
      some (match listMax? t with | none => n | some m => Nat.max n m) :=
  rfl

theorem listMax?_append_single (l : List Nat) (k : Nat) :
    listMax? (l ++ [k]) =
      some (match listMax? l with | none => k | some m => Nat.max m k) := by
  induction l with
  | nil => rfl
  | cons n rest ih =>
    rw [List.cons_append, listMax?_cons, ih, listMax?_cons]
    cases h : listMax? rest
    · rfl
    · exact congrArg some (Nat.max_assoc n _ k).symm

theorem nextCandidateNumber_snoc (store : List Candidate) (ins : Candidate) (k : Nat)
    (hk : nextCandidateNumber store = k) :
    nextCandidateNumber (store ++ [{ ins with candidateNumber := some k }]) = k + 1 := by
  unfold nextCandidateNumber at hk ⊢
  rw [List.filterMap_append]
  simp only [List.filterMap_cons, List.filterMap_nil]
  rw [listMax?_append_single]
  cases h : listMax? (store.filterMap fun c => c.candidateNumber) with
  | none =>
    rw [h] at hk
    have hk2 : (100 : Nat) = k := hk
    subst hk2
    rfl
  | some m =>
    rw [h] at hk
    have hk2 : (if m = 0 then 99 else m) + 1 = k := hk
    show (if Nat.max m k = 0 then 99 else Nat.max m k) + 1 = k + 1
    by_cases hm : m = 0
    · subst hm
      rw [if_pos rfl] at hk2
      have hk3 : k = 100 := by omega
      subst hk3
      rfl
    · rw [if_neg hm] at hk2
      have hmk : Nat.max m k = k := Nat.max_eq_right (by omega)
      rw [hmk, if_neg (by omega)]

theorem runCreates_numbers (inss : List Candidate) : ∀ (store : List Candidate),
    (runCreates store inss).2 = List.range' (nextCandidateNumber store) inss.length := by
  induction inss with
  | nil => intro store; rfl
  | cons ins rest ih =>
    intro store
    simp only [runCreates, createCandidate, List.length_cons]
    rw [List.range'_succ]
    refine congrArg₂ List.cons rfl ?_
    rw [ih]
    rw [nextCandidateNumber_snoc store ins (nextCandidateNumber store) rfl]

/-- C6: starting from a store with no numbered candidate, a sequence of
`createCandidate` calls with no concurrent interleaving assigns exactly the
numbers 100, 101, 102, … — strictly increasing, gapless from the start,
and never reused. -/
theorem C6_candidate_numbering (store0 inss : List Candidate)
    (h : ∀ c ∈ store0, c.candidateNumber = none) :
    (runCreates store0 inss).2 = List.range' 100 inss.length ∧
    List.Pairwise (· < ·) (runCreates store0 inss).2 := by
  have h0 : nextCandidateNumber store0 = 100 := by
    unfold nextCandidateNumber
    rw [List.filterMap_eq_nil_iff.mpr h]
    rfl
  constructor
  · rw [runCreates_numbers, h0]
  · rw [runCreates_numbers, h0]
    exact List.pairwise_lt_range' 100 inss.length

/-- C6 witness: three creations on an empty store assign 100, 101, 102. -/
theorem C6_candidate_numbering_witness :
    (∀ c ∈ ([] : List Candidate), c.candidateNumber = none) ∧
    ((runCreates [] [blankCand, blankCand, blankCand]).2 = List.range' 100 3 ∧
     List.Pairwise (· < ·) (runCreates [] [blankCand, blankCand, blankCand]).2) :=
  ⟨by simp, C6_candidate_numbering [] [blankCand, blankCand, blankCand] (by simp)⟩

/-- C7 counterexample: on a duplicate manual creation the storage layer
does throw a business error carrying the existing application, but the
`POST /api/job-applications` handler maps it to the same generic
`500 Failed to create job application` reply it uses for every other
failure — it does not surface the conflict distinctly. -/
theorem C7_counterexample :
    createJobApplication [app7] "new-id" 5 ins7 = .dupError app7 [app7] ∧
    postJobApplicationsHandler [app7] "new-id" 5 (.ok ins7) =
      .failure 500 "Failed to create job application" := by
  exact ⟨by decide, by decide⟩

/-- C7 (amended): on a duplicate candidate+job pair with a status other
than `interview_scheduled`, `createJobApplication` throws a business error
distinguishable from a generic failure and carrying the existing
application record, and leaves the stored applications unchanged; the REST
handler, however, collapses it into the generic `500` reply, offering the
client no distinct conflict signal. -/
theorem C7_duplicate_application (store : List JobApplication) (newId : String) (now : Nat)
    (ins : InsertJobApplication)
    (hdup : ∃ a ∈ store, a.candidateId = ins.candidateId ∧ a.jobId = ins.jobId)
    (hstatus : ins.status ≠ "interview_scheduled") :
    ∃ e ∈ store, e.candidateId = ins.candidateId ∧ e.jobId = ins.jobId ∧
      createJobApplication store newId now ins = .dupError e store ∧
      postJobApplicationsHandler store newId now (.ok ins) =
        .failure 500 "Failed to create job application" := by
  have hs : (store.find? (fun a => a.candidateId = ins.candidateId ∧
      a.jobId = ins.jobId)).isSome := by
    rw [List.find?_isSome]
    obtain ⟨a, ha, h1, h2⟩ := hdup
    exact ⟨a, ha, by simp [h1, h2]⟩
  obtain ⟨e, he⟩ := Option.isSome_iff_exists.mp hs
  have hprop := List.find?_some he
  simp only [decide_eq_true_eq] at hprop
  refine ⟨e, List.mem_of_find?_eq_some he, hprop.1, hprop.2, ?_, ?_⟩
  · unfold createJobApplication
    simp only [he]
    rw [if_neg hstatus]
  · unfold postJobApplicationsHandler createJobApplication
    simp only [he]
    rw [if_neg hstatus]

/-- C7 witness: the amended statement at a concrete duplicate insert. -/
theorem C7_duplicate_application_witness :
    (∃ a ∈ [app7], a.candidateId = ins7.candidateId ∧ a.jobId = ins7.jobId) ∧
    ins7.status ≠ "interview_scheduled" ∧
    ∃ e ∈ [app7], e.candidateId = ins7.candidateId ∧ e.jobId = ins7.jobId ∧
      createJobApplication [app7] "new-id" 5 ins7 = .dupError e [app7] ∧
      postJobApplicationsHandler [app7] "new-id" 5 (.ok ins7) =
        .failure 500 "Failed to create job application" :=
  ⟨⟨app7, by simp, rfl, rfl⟩, by decide,
    C7_duplicate_application [app7] "new-id" 5 ins7 ⟨app7, by simp, rfl, rfl⟩ (by decide)⟩

/-- C10: a duplicate creation requesting status `interview_scheduled`
raises no error: the existing application's status is updated in place (no
second row — the store keeps its length), and the updated record is
returned flagged as already existing, carrying the original `appliedAt`
and the original status. -/
theorem C10_interview_upgrade (store : List JobApplication) (newId : String) (now : Nat)
    (ins : InsertJobApplication)
    (hstatus : ins.status = "interview_scheduled")
    (hdup : ∃ a ∈ store, a.candidateId = ins.candidateId ∧ a.jobId = ins.jobId) :
    ∃ e ∈ store, e.candidateId = ins.candidateId ∧ e.jobId = ins.jobId ∧
      createJobApplication store newId now ins =
        .ok ⟨{ e with status := "interview_scheduled" }, true, some e.appliedAt,
              some e.status, true⟩
          (store.map (fun a =>
            if a.id = e.id then { a with status := "interview_scheduled" } else a)) ∧
      (store.map (fun a =>
        if a.id = e.id then { a with status := "interview_scheduled" } else a)).length =
        store.length := by
  have hs : (store.find? (fun a => a.candidateId = ins.candidateId ∧
      a.jobId = ins.jobId)).isSome := by
    rw [List.find?_isSome]
    obtain ⟨a, ha, h1, h2⟩ := hdup
    exact ⟨a, ha, by simp [h1, h2]⟩
  obtain ⟨e, he⟩ := Option.isSome_iff_exists.mp hs
  have hprop := List.find?_some he
  simp only [decide_eq_true_eq] at hprop
  refine ⟨e, List.mem_of_find?_eq_some he, hprop.1, hprop.2, ?_, List.length_map store _⟩
  unfold createJobApplication
  simp only [he]
  rw [if_pos hstatus]

/-- C10 witness: the statement at a concrete duplicate insert requesting
`interview_scheduled`. -/
theorem C10_interview_upgrade_witness :
    ins10.status = "interview_scheduled" ∧
    (∃ a ∈ [app7], a.candidateId = ins10.candidateId ∧ a.jobId = ins10.jobId) ∧
    ∃ e ∈ [app7], e.candidateId = ins10.candidateId ∧ e.jobId = ins10.jobId ∧
      createJobApplication [app7] "new-id" 5 ins10 =
        .ok ⟨{ e with status := "interview_scheduled" }, true, some e.appliedAt,
              some e.status, true⟩
          ([app7].map (fun a =>
            if a.id = e.id then { a with status := "interview_scheduled" } else a)) ∧
      ([app7].map (fun a =>
        if a.id = e.id then { a with status := "interview_scheduled" } else a)).length =
        [app7].length :=
  ⟨rfl, ⟨app7, by simp, rfl, rfl⟩,
    C10_interview_upgrade [app7] "new-id" 5 ins10 rfl ⟨app7, by simp, rfl, rfl⟩⟩

/-- C9: when the query splits into an empty term list — as for the empty
or a whitespace-only query — the indexed search returns the empty list and
total 0 immediately, with no query issued to the candidate store. -/
theorem C9_empty_terms (store : List Candidate) (tsMatch : String → Candidate → Bool)
    (rankOf : String → Candidate → Nat) (keywords : String) (limit offset : Nat)
    (h : splitToTerms keywords = []) :
    searchCandidatesByKeywords store tsMatch rankOf keywords limit offset =
      ⟨[], 0, false⟩ := by
  unfold searchCandidatesByKeywords
  rw [h]
  rfl

/-- C8: `extractDataFromText` is a total function of the text (every Lean
function is; nothing in its definition can fail), and whenever none of its
heuristics finds anything — no pattern match, no keyword hit — the result
is the record with every string field empty and `experience` null. -/
theorem C8_extraction_total_empty (text : String)
    (h : noHeuristicMatches text = true) :
    extractDataFromText text = emptyExtracted := by
  unfold noHeuristicMatches at h
  simp only [Bool.and_eq_true, and_assoc, Option.isNone_iff_eq_none, List.isEmpty_iff] at h
  obtain ⟨h1, h2, h3, h4, h5, h6, h7, h8, h9, h10, h11, h12, h13, h14, h15⟩ := h
  unfold extractDataFromText
  simp only [h1, h2, h3, h4, h5, h6, h7, h8, h9, h10, h11, h12, h13, h14, h15]
  rfl

/-- C8 witness: the empty string triggers no heuristic and extracts the
all-empty record. -/
theorem C8_extraction_total_empty_witness :
    noHeuristicMatches "" = true ∧ extractDataFromText "" = emptyExtracted :=
  ⟨by decide, C8_extraction_total_empty "" (by decide)⟩

/-- C9 witness: the empty query on a concrete store. -/
theorem C9_empty_terms_witness :
    splitToTerms " " = [] ∧
    searchCandidatesByKeywords [c5cand] (fun _ _ => true) (fun _ _ => 0) " " 50 0 =
      ⟨[], 0, false⟩ :=
  ⟨by decide, C9_empty_terms [c5cand] (fun _ _ => true) (fun _ _ => 0) " " 50 0 (by decide)⟩

end ClickJob
